import Mathlib

/-
Shallow embedding of the `Mediator` escrow contract (src/mediator.py, SmartPy).

The contract storage is a record of a product listing (item_id, price), a
seller address, a buyer address and two boolean occupancy flags.  Each entry
point is embedded as a pure function from the storage, the caller (sp.sender)
and, where the source reads sp.amount, the attached amount, to an
`Except String (State × List Transfer)`: `error msg` models a failed
`sp.verify` (the transaction aborts with the given message, no state change
and no value movement), `ok (s, ts)` models the committed new storage together
with the list of outgoing `sp.send` transfers in source order.

Amounts are mutez as natural numbers (`sp.utils.nat_to_mutez` on a `sp.TNat`).
Addresses are opaque strings compared for equality, as `sp.address` values are.
-/

namespace DEFAULTS

/-- Default seller address (source: `DEFAULTS.default_seller`). -/
def default_seller : String := "tz1YtuZ4vhzzn7ssCt93Put8U9UJDdvCXci4"

/-- Default buyer address (source: `DEFAULTS.default_buyer`). -/
def default_buyer : String := "tz1YtuZ4vhzzn7ssCt93Put8U9UJDdvCXci4"

end DEFAULTS

namespace Mediator

/-- The product record stored in the contract: `sp.record(item_id, price)`. -/
structure Product where
  item_id : Nat
  price : Nat
deriving DecidableEq, Repr

/-- The contract storage, as initialised by `Mediator.__init__`. -/
structure State where
  product : Product
  seller : String
  buyer : String
  seller_is_set : Bool
  buyer_is_set : Bool
deriving DecidableEq, Repr

/-- One outgoing `sp.send(dest, amount)` transfer. -/
structure Transfer where
  dest : String
  amount : Nat
deriving DecidableEq, Repr

/-- The initial storage built by `Mediator.__init__`. -/
def initState : State :=
  { product := ⟨0, 0⟩
    seller := DEFAULTS.default_seller
    buyer := DEFAULTS.default_buyer
    seller_is_set := false
    buyer_is_set := false }

/-- Entry point `sell` (source lines 66-80): verifies that no seller is set
and that the attached amount is exactly twice the stated price, then stores
the product, the seller (the caller) and sets `seller_is_set`. -/
def sell (s : State) (sender : String) (amount : Nat) (item_id price : Nat) :
    Except String (State × List Transfer) :=
  if s.seller_is_set then .error "Contract already in use."
  else if amount = 2 * price then
    .ok ({ s with product := ⟨item_id, price⟩, seller := sender, seller_is_set := true }, [])
  else .error "Stake should be two times the product price."

/-- Entry point `buy` (source lines 85-97): verifies that a seller is set, no
buyer is set, and the attached amount is exactly twice the stored price, then
stores the buyer (the caller) and sets `buyer_is_set`.  The `item_id`
parameter is accepted but never read. -/
def buy (s : State) (sender : String) (amount : Nat) (item_id : Nat) :
    Except String (State × List Transfer) :=
  if !s.seller_is_set then .error "Product not yet set."
  else if s.buyer_is_set then .error "Contract already in use."
  else if amount = 2 * s.product.price then
    .ok ({ s with buyer := sender, buyer_is_set := true }, [])
  else .error "Stake should be two times the product price."

/-- Internal helper `reset_contract` (source lines 142-145): clears the
product and both occupancy flags; the seller and buyer fields are untouched. -/
def reset_contract (s : State) : State :=
  { s with product := ⟨0, 0⟩, buyer_is_set := false, seller_is_set := false }

/-- Entry point `received` (source lines 102-117): verifies both parties are
set and the caller is the buyer, then sends `price` to the caller and
`3 * price` to the seller, and resets the contract.  The `item_id` parameter
is accepted but never read; the attached amount is never read. -/
def received (s : State) (sender : String) (item_id : Nat) :
    Except String (State × List Transfer) :=
  if !s.seller_is_set then .error "Seller not yet set."
  else if !s.buyer_is_set then .error "Buyer not yet set."
  else if sender = s.buyer then
    .ok (reset_contract s,
      [⟨sender, s.product.price⟩, ⟨s.seller, 3 * s.product.price⟩])
  else .error "You are not the buyer."

/-- Entry point `unsell` (source lines 122-137): verifies both parties are
set and the caller is the seller, then sends `2 * price` to the caller and
`2 * price` to the buyer, and resets the contract.  The `item_id` parameter
is accepted but never read; the attached amount is never read. -/
def unsell (s : State) (sender : String) (item_id : Nat) :
    Except String (State × List Transfer) :=
  if !s.seller_is_set then .error "Seller not yet set."
  else if !s.buyer_is_set then .error "Buyer not yet set."
  else if sender = s.seller then
    .ok (reset_contract s,
      [⟨sender, 2 * s.product.price⟩, ⟨s.buyer, 2 * s.product.price⟩])
  else .error "You are not the seller."

/-! ### Ledger semantics: configurations, calls and reachability

On Tezos every entry-point invocation may carry an attached amount; a
successful invocation first credits the attached amount to the contract
balance and then debits the emitted transfers.  A failed invocation reverts
wholly, leaving balance and storage untouched. -/

/-- A contract configuration: storage plus held balance (mutez). -/
structure Config where
  state : State
  balance : Nat
deriving DecidableEq, Repr

/-- One external invocation of an entry point: caller, attached amount and
the entry point's parameters. -/
inductive Call where
  | sell (sender : String) (amount item_id price : Nat)
  | buy (sender : String) (amount item_id : Nat)
  | received (sender : String) (amount item_id : Nat)
  | unsell (sender : String) (amount item_id : Nat)
deriving DecidableEq, Repr

/-- Total mutez emitted by a list of transfers. -/
def transferTotal (ts : List Transfer) : Nat :=
  (ts.map Transfer.amount).sum

/-- Commit an entry point's result against the configuration: on success the
attached amount is credited and the emitted transfers debited. -/
def settle (c : Config) (amount : Nat) :
    Except String (State × List Transfer) → Except String Config
  | .error e => .error e
  | .ok (s, ts) => .ok ⟨s, c.balance + amount - transferTotal ts⟩

/-- Apply one external invocation to a configuration. -/
def applyCall (c : Config) : Call → Except String Config
  | .sell sender amount item_id price => settle c amount (sell c.state sender amount item_id price)
  | .buy sender amount item_id => settle c amount (buy c.state sender amount item_id)
  | .received sender amount item_id => settle c amount (received c.state sender item_id)
  | .unsell sender amount item_id => settle c amount (unsell c.state sender item_id)

/-- Configurations reachable from the freshly originated contract (initial
storage, zero balance) by successful invocations. -/
inductive Reachable : Config → Prop where
  | init : Reachable ⟨initState, 0⟩
  | step {c c' : Config} (call : Call) :
      Reachable c → applyCall c call = .ok c' → Reachable c'

/-- An invocation of a resolving entry point (`received` or `unsell`) carries
zero attached amount; other invocations are unconstrained. -/
def resolveAmountZero : Call → Prop
  | .received _ amount _ => amount = 0
  | .unsell _ amount _ => amount = 0
  | _ => True

/-- Reachability when every resolving invocation attaches zero amount. -/
inductive ReachableZ : Config → Prop where
  | init : ReachableZ ⟨initState, 0⟩
  | step {c c' : Config} (call : Call) :
      ReachableZ c → resolveAmountZero call → applyCall c call = .ok c' → ReachableZ c'

/-! ### Derived predicates used by the spec -/

/-- The spec's `Empty` state: listing `{0,0}` and both flags false. -/
def emptyLike (s : State) : Prop :=
  s.product = ⟨0, 0⟩ ∧ s.seller_is_set = false ∧ s.buyer_is_set = false

/-- The spec's two data-model state invariants: a buyer cannot exist without
a seller, and while no seller is set the listing is `{0,0}`. -/
def stateInv (s : State) : Prop :=
  (s.buyer_is_set = true → s.seller_is_set = true) ∧
  (s.seller_is_set = false → s.product = ⟨0, 0⟩)

/-- The spec's escrow-balance invariant on configurations: the held balance
is `0` when both flags are false, `2 * price` when only the seller has
deposited, and `4 * price` when both have deposited. -/
def escrowInvariant (c : Config) : Prop :=
  (c.state.seller_is_set = false ∧ c.state.buyer_is_set = false → c.balance = 0) ∧
  (c.state.seller_is_set = true ∧ c.state.buyer_is_set = false →
    c.balance = 2 * c.state.product.price) ∧
  (c.state.seller_is_set = true ∧ c.state.buyer_is_set = true →
    c.balance = 4 * c.state.product.price)

/-- The observable part of the storage: the product, the flags, and each
identity only while its flag is set (the spec declares identity values
meaningless when the flag is false). -/
def view (s : State) : Product × Bool × Bool × Option String × Option String :=
  (s.product, s.seller_is_set, s.buyer_is_set,
    if s.seller_is_set then some s.seller else none,
    if s.buyer_is_set then some s.buyer else none)

/-- Two entry-point results are observably equal: same error, or same
transfers and observably equal storages. -/
def outEquiv : Except String (State × List Transfer) →
    Except String (State × List Transfer) → Prop
  | .error e₁, .error e₂ => e₁ = e₂
  | .ok (s₁, ts₁), .ok (s₂, ts₂) => view s₁ = view s₂ ∧ ts₁ = ts₂
  | _, _ => False

/-! ### Success characterisations of the four entry points -/

theorem sell_ok_iff {s : State} {sender : String} {amount item_id price : Nat}
    {s' : State} {ts : List Transfer}
    (h : sell s sender amount item_id price = .ok (s', ts)) :
    s.seller_is_set = false ∧ amount = 2 * price ∧
    s' = { s with product := ⟨item_id, price⟩, seller := sender, seller_is_set := true } ∧
    ts = [] := by
  unfold sell at h
  split at h
  · simp at h
  · split at h
    · next hns hamt =>
      simp only [Except.ok.injEq, Prod.mk.injEq] at h
      exact ⟨by simpa using hns, hamt, h.1.symm, h.2.symm⟩
    · simp at h

theorem buy_ok_iff {s : State} {sender : String} {amount item_id : Nat}
    {s' : State} {ts : List Transfer}
    (h : buy s sender amount item_id = .ok (s', ts)) :
    s.seller_is_set = true ∧ s.buyer_is_set = false ∧ amount = 2 * s.product.price ∧
    s' = { s with buyer := sender, buyer_is_set := true } ∧ ts = [] := by
  unfold buy at h
  split at h
  · simp at h
  · next hss =>
    split at h
    · simp at h
    · next hbs =>
      split at h
      · next hamt =>
        simp only [Except.ok.injEq, Prod.mk.injEq] at h
        exact ⟨by simpa using hss, by simpa using hbs, hamt, h.1.symm, h.2.symm⟩
      · simp at h

theorem received_ok_iff {s : State} {sender : String} {item_id : Nat}
    {s' : State} {ts : List Transfer}
    (h : received s sender item_id = .ok (s', ts)) :
    s.seller_is_set = true ∧ s.buyer_is_set = true ∧ sender = s.buyer ∧
    s' = reset_contract s ∧
    ts = [⟨sender, s.product.price⟩, ⟨s.seller, 3 * s.product.price⟩] := by
  unfold received at h
  split at h
  · simp at h
  · next hss =>
    split at h
    · simp at h
    · next hbs =>
      split at h
      · next hc =>
        simp only [Except.ok.injEq, Prod.mk.injEq] at h
        exact ⟨by simpa using hss, by simpa using hbs, hc, h.1.symm, h.2.symm⟩
      · simp at h

theorem unsell_ok_iff {s : State} {sender : String} {item_id : Nat}
    {s' : State} {ts : List Transfer}
    (h : unsell s sender item_id = .ok (s', ts)) :
    s.seller_is_set = true ∧ s.buyer_is_set = true ∧ sender = s.seller ∧
    s' = reset_contract s ∧
    ts = [⟨sender, 2 * s.product.price⟩, ⟨s.buyer, 2 * s.product.price⟩] := by
  unfold unsell at h
  split at h
  · simp at h
  · next hss =>
    split at h
    · simp at h
    · next hbs =>
      split at h
      · next hc =>
        simp only [Except.ok.injEq, Prod.mk.injEq] at h
        exact ⟨by simpa using hss, by simpa using hbs, hc, h.1.symm, h.2.symm⟩
      · simp at h

/-! ### Claim theorems -/

/-- Claim C1: in every state with both flags set, when the caller is the
stored buyer, `received` sends exactly `price` to the buyer and exactly
`3 * price` to the seller — together the entire held balance of `4 * price`
— and resets the storage to `Empty` (listing `{0,0}`, both flags false). -/
theorem received_fully_staked_payout (s : State) (sender : String) (item_id : Nat)
    (hss : s.seller_is_set = true) (hbs : s.buyer_is_set = true)
    (hc : sender = s.buyer) :
    received s sender item_id =
      .ok ({ s with product := ⟨0, 0⟩, buyer_is_set := false, seller_is_set := false },
        [⟨s.buyer, s.product.price⟩, ⟨s.seller, 3 * s.product.price⟩]) ∧
    s.product.price + 3 * s.product.price = 4 * s.product.price := by
  refine ⟨?_, by ring⟩
  simp [received, reset_contract, hss, hbs, hc]

/-- Claim C1 witness: a concrete fully staked instance at price 5. -/
theorem received_fully_staked_payout_witness :
    received ⟨⟨7, 5⟩, "alice", "bob", true, true⟩ "bob" 7 =
      .ok (⟨⟨0, 0⟩, "alice", "bob", false, false⟩, [⟨"bob", 5⟩, ⟨"alice", 15⟩]) ∧
    5 + 3 * 5 = 4 * 5 :=
  received_fully_staked_payout ⟨⟨7, 5⟩, "alice", "bob", true, true⟩ "bob" 7 rfl rfl rfl

/-- Claim C2: in every state with both flags set, when the caller is the
stored seller, `unsell` sends exactly `2 * price` to the seller and exactly
`2 * price` to the buyer and resets the storage to `Empty`; the seller's
payout equals the seller's own `2 * price` stake, so the seller's net gain
from `unsell` is zero. -/
theorem unsell_fully_staked_refund (s : State) (sender : String) (item_id : Nat)
    (hss : s.seller_is_set = true) (hbs : s.buyer_is_set = true)
    (hc : sender = s.seller) :
    unsell s sender item_id =
      .ok ({ s with product := ⟨0, 0⟩, buyer_is_set := false, seller_is_set := false },
        [⟨s.seller, 2 * s.product.price⟩, ⟨s.buyer, 2 * s.product.price⟩]) ∧
    (2 * s.product.price : Int) - 2 * s.product.price = 0 := by
  refine ⟨?_, by ring⟩
  simp [unsell, reset_contract, hss, hbs, hc]

/-- Claim C2 witness: a concrete fully staked instance at price 5. -/
theorem unsell_fully_staked_refund_witness :
    unsell ⟨⟨7, 5⟩, "alice", "bob", true, true⟩ "alice" 7 =
      .ok (⟨⟨0, 0⟩, "alice", "bob", false, false⟩, [⟨"alice", 10⟩, ⟨"bob", 10⟩]) ∧
    (2 * 5 : Int) - 2 * 5 = 0 :=
  unsell_fully_staked_refund ⟨⟨7, 5⟩, "alice", "bob", true, true⟩ "alice" 7 rfl rfl rfl

/-- Claim C5: from the `Empty` state, `sell` with any attached amount other
than `2 * price` fails with the invalid-stake error (and, failure being an
aborted transaction, leaves the instance at `Empty` with no value movement). -/
theorem sell_invalid_stake (s : State) (sender : String) (amount item_id price : Nat)
    (hE : emptyLike s) (hamt : amount ≠ 2 * price) :
    sell s sender amount item_id price =
      .error "Stake should be two times the product price." := by
  simp [sell, hE.2.1, hamt]

/-- Claim C5 witness: attaching 3 for a price of 2 from the initial state. -/
theorem sell_invalid_stake_witness :
    sell initState "alice" 3 1 2 =
      .error "Stake should be two times the product price." :=
  sell_invalid_stake initState "alice" 3 1 2 ⟨rfl, rfl, rfl⟩ (by decide)

/-- Claim C7: in every fully staked state, `received` called by anyone other
than the stored buyer fails with the not-the-buyer error, and `unsell` called
by anyone other than the stored seller fails with the not-the-seller error;
a failed call moves no funds and leaves the storage unchanged. -/
theorem resolving_unauthorized :
    (∀ (s : State) (sender : String) (item_id : Nat),
      s.seller_is_set = true → s.buyer_is_set = true → sender ≠ s.buyer →
      received s sender item_id = .error "You are not the buyer.") ∧
    (∀ (s : State) (sender : String) (item_id : Nat),
      s.seller_is_set = true → s.buyer_is_set = true → sender ≠ s.seller →
      unsell s sender item_id = .error "You are not the seller.") := by
  constructor
  · intro s sender item_id hss hbs hne
    simp [received, hss, hbs, hne]
  · intro s sender item_id hss hbs hne
    simp [unsell, hss, hbs, hne]

/-- Claim C7 witness: a third party calling both resolving entry points on a
concrete fully staked instance. -/
theorem resolving_unauthorized_witness :
    received ⟨⟨7, 5⟩, "alice", "bob", true, true⟩ "eve" 7 =
      .error "You are not the buyer." ∧
    unsell ⟨⟨7, 5⟩, "alice", "bob", true, true⟩ "eve" 7 =
      .error "You are not the seller." :=
  ⟨resolving_unauthorized.1 ⟨⟨7, 5⟩, "alice", "bob", true, true⟩ "eve" 7 rfl rfl
      (by decide),
    resolving_unauthorized.2 ⟨⟨7, 5⟩, "alice", "bob", true, true⟩ "eve" 7 rfl rfl
      (by decide)⟩

/-- Claim C8: in every state with no seller set, `buy` fails with the
product-not-set error for every caller, attached amount and item id; a
failed call moves no funds and leaves the storage unchanged. -/
theorem buy_before_sell (s : State) (sender : String) (amount item_id : Nat)
    (hss : s.seller_is_set = false) :
    buy s sender amount item_id = .error "Product not yet set." := by
  simp [buy, hss]

/-- Claim C8 witness: buying from the initial state. -/
theorem buy_before_sell_witness :
    buy initState "bob" 2 1 = .error "Product not yet set." :=
  buy_before_sell initState "bob" 2 1 rfl

/-- Claim C9: the results of `buy`, `received` and `unsell` — outcome,
resulting storage and transfers — do not depend on the `item_id` argument:
for any two item ids and otherwise identical state, caller and attached
amount, the results are equal (the argument is never compared with the
stored listing). -/
theorem item_id_irrelevant :
    (∀ (s : State) (sender : String) (amount i j : Nat),
      buy s sender amount i = buy s sender amount j) ∧
    (∀ (s : State) (sender : String) (i j : Nat),
      received s sender i = received s sender j) ∧
    (∀ (s : State) (sender : String) (i j : Nat),
      unsell s sender i = unsell s sender j) :=
  ⟨fun _ _ _ _ _ => rfl, fun _ _ _ _ => rfl, fun _ _ _ _ => rfl⟩

/-- Claim C10: the internal reset touches only the listing and the two
flags — `reset_contract` and the successful resolving calls leave the stored
seller and buyer identities unchanged, so after a resolving call they still
hold the previous cycle's participants; the two placeholder defaults are one
and the same address. -/
theorem reset_preserves_identities :
    (∀ s : State, (reset_contract s).seller = s.seller ∧
      (reset_contract s).buyer = s.buyer) ∧
    (∀ (s : State) (sender : String) (item_id : Nat) (s' : State) (ts : List Transfer),
      received s sender item_id = .ok (s', ts) →
      s'.seller = s.seller ∧ s'.buyer = s.buyer) ∧
    (∀ (s : State) (sender : String) (item_id : Nat) (s' : State) (ts : List Transfer),
      unsell s sender item_id = .ok (s', ts) →
      s'.seller = s.seller ∧ s'.buyer = s.buyer) ∧
    DEFAULTS.default_seller = DEFAULTS.default_buyer := by
  refine ⟨fun s => ⟨rfl, rfl⟩, ?_, ?_, rfl⟩
  · intro s sender item_id s' ts h
    obtain ⟨-, -, -, rfl, -⟩ := received_ok_iff h
    exact ⟨rfl, rfl⟩
  · intro s sender item_id s' ts h
    obtain ⟨-, -, -, rfl, -⟩ := unsell_ok_iff h
    exact ⟨rfl, rfl⟩

/-- Claim C10 witness: after `received` on a concrete fully staked instance
the seller and buyer fields still hold alice and bob. -/
theorem reset_preserves_identities_witness :
    (⟨⟨0, 0⟩, "alice", "bob", false, false⟩ : State).seller =
      (⟨⟨7, 5⟩, "alice", "bob", true, true⟩ : State).seller ∧
    (⟨⟨0, 0⟩, "alice", "bob", false, false⟩ : State).buyer =
      (⟨⟨7, 5⟩, "alice", "bob", true, true⟩ : State).buyer :=
  reset_preserves_identities.2.1 ⟨⟨7, 5⟩, "alice", "bob", true, true⟩ "bob" 7
    ⟨⟨0, 0⟩, "alice", "bob", false, false⟩ [⟨"bob", 5⟩, ⟨"alice", 15⟩] rfl

/-- Claim C4: the two data-model state invariants — a buyer implies a seller,
and no seller implies the zero listing — hold in the initial storage and are
preserved by every entry point, whether it succeeds or fails (a failed call
leaves the storage unchanged, so preservation on failure is preservation of
the pre-state). -/
theorem state_invariants_preserved :
    stateInv initState ∧
    (∀ (s : State) (sender : String) (amount item_id price : Nat)
      (s' : State) (ts : List Transfer), stateInv s →
      sell s sender amount item_id price = .ok (s', ts) → stateInv s') ∧
    (∀ (s : State) (sender : String) (amount item_id : Nat)
      (s' : State) (ts : List Transfer), stateInv s →
      buy s sender amount item_id = .ok (s', ts) → stateInv s') ∧
    (∀ (s : State) (sender : String) (item_id : Nat)
      (s' : State) (ts : List Transfer), stateInv s →
      received s sender item_id = .ok (s', ts) → stateInv s') ∧
    (∀ (s : State) (sender : String) (item_id : Nat)
      (s' : State) (ts : List Transfer), stateInv s →
      unsell s sender item_id = .ok (s', ts) → stateInv s') := by
  refine ⟨⟨fun h => by simp [initState] at h, fun _ => rfl⟩, ?_, ?_, ?_, ?_⟩
  · intro s sender amount item_id price s' ts hinv h
    obtain ⟨-, -, rfl, -⟩ := sell_ok_iff h
    exact ⟨fun _ => rfl, fun h => by simp at h⟩
  · intro s sender amount item_id s' ts hinv h
    obtain ⟨hss, -, -, rfl, -⟩ := buy_ok_iff h
    exact ⟨fun _ => hss, fun h => by rw [hss] at h; simp at h⟩
  · intro s sender item_id s' ts hinv h
    obtain ⟨-, -, -, rfl, -⟩ := received_ok_iff h
    exact ⟨fun h => by simp [reset_contract] at h, fun _ => rfl⟩
  · intro s sender item_id s' ts hinv h
    obtain ⟨-, -, -, rfl, -⟩ := unsell_ok_iff h
    exact ⟨fun h => by simp [reset_contract] at h, fun _ => rfl⟩

/-- Claim C4 witness: the invariant after a concrete successful `sell` from
the initial storage. -/
theorem state_invariants_preserved_witness :
    stateInv ⟨⟨1, 3⟩, "alice", DEFAULTS.default_buyer, true, false⟩ :=
  state_invariants_preserved.2.1 initState "alice" 6 1 3
    ⟨⟨1, 3⟩, "alice", DEFAULTS.default_buyer, true, false⟩ []
    state_invariants_preserved.1 rfl

/-! ### Observational equivalence of storages with the same view -/

theorem view_eq_parts {s₁ s₂ : State} (h : view s₁ = view s₂) :
    s₁.product = s₂.product ∧ s₁.seller_is_set = s₂.seller_is_set ∧
    s₁.buyer_is_set = s₂.buyer_is_set ∧
    (s₁.seller_is_set = true → s₁.seller = s₂.seller) ∧
    (s₁.buyer_is_set = true → s₁.buyer = s₂.buyer) := by
  simp only [view, Prod.mk.injEq] at h
  obtain ⟨h1, h2, h3, h4, h5⟩ := h
  refine ⟨h1, h2, h3, ?_, ?_⟩
  · intro hs
    have hs2 : s₂.seller_is_set = true := h2 ▸ hs
    simpa [hs, hs2] using h4
  · intro hb
    have hb2 : s₂.buyer_is_set = true := h3 ▸ hb
    simpa [hb, hb2] using h5

theorem sell_view_congr {s₁ s₂ : State} (hv : view s₁ = view s₂)
    (sender : String) (amount item_id price : Nat) :
    outEquiv (sell s₁ sender amount item_id price)
      (sell s₂ sender amount item_id price) := by
  obtain ⟨hp, hs, hb, hsel, hbuy⟩ := view_eq_parts hv
  cases hss : s₁.seller_is_set with
  | true =>
    have h2 : s₂.seller_is_set = true := hs ▸ hss
    simp [sell, hss, h2, outEquiv]
  | false =>
    have h2 : s₂.seller_is_set = false := hs ▸ hss
    by_cases hamt : amount = 2 * price
    · cases hbb : s₁.buyer_is_set with
      | true =>
        have h3 : s₂.buyer_is_set = true := hb ▸ hbb
        simp [sell, hss, h2, hamt, outEquiv, view, hbb, h3, hbuy hbb]
      | false =>
        have h3 : s₂.buyer_is_set = false := hb ▸ hbb
        simp [sell, hss, h2, hamt, outEquiv, view, hbb, h3]
    · simp [sell, hss, h2, hamt, outEquiv]

theorem buy_view_congr {s₁ s₂ : State} (hv : view s₁ = view s₂)
    (sender : String) (amount item_id : Nat) :
    outEquiv (buy s₁ sender amount item_id) (buy s₂ sender amount item_id) := by
  obtain ⟨hp, hs, hb, hsel, hbuy⟩ := view_eq_parts hv
  cases hss : s₁.seller_is_set with
  | false =>
    have h2 : s₂.seller_is_set = false := hs ▸ hss
    simp [buy, hss, h2, outEquiv]
  | true =>
    have h2 : s₂.seller_is_set = true := hs ▸ hss
    cases hbb : s₁.buyer_is_set with
    | true =>
      have h3 : s₂.buyer_is_set = true := hb ▸ hbb
      simp [buy, hss, h2, hbb, h3, outEquiv]
    | false =>
      have h3 : s₂.buyer_is_set = false := hb ▸ hbb
      by_cases hamt : amount = 2 * s₁.product.price
      · have hamt2 : amount = 2 * s₂.product.price := hp ▸ hamt
        simp [buy, hss, h2, hbb, h3, hamt, hamt2, outEquiv, view, hp, hsel hss]
      · have hamt2 : ¬ amount = 2 * s₂.product.price := hp ▸ hamt
        simp [buy, hss, h2, hbb, h3, hamt, hamt2, outEquiv]

theorem received_view_congr {s₁ s₂ : State} (hv : view s₁ = view s₂)
    (sender : String) (item_id : Nat) :
    outEquiv (received s₁ sender item_id) (received s₂ sender item_id) := by
  obtain ⟨hp, hs, hb, hsel, hbuy⟩ := view_eq_parts hv
  cases hss : s₁.seller_is_set with
  | false =>
    have h2 : s₂.seller_is_set = false := hs ▸ hss
    simp [received, hss, h2, outEquiv]
  | true =>
    have h2 : s₂.seller_is_set = true := hs ▸ hss
    cases hbb : s₁.buyer_is_set with
    | false =>
      have h3 : s₂.buyer_is_set = false := hb ▸ hbb
      simp [received, hss, h2, hbb, h3, outEquiv]
    | true =>
      have h3 : s₂.buyer_is_set = true := hb ▸ hbb
      have hbeq : s₁.buyer = s₂.buyer := hbuy hbb
      by_cases hc : sender = s₁.buyer
      · have hc2 : sender = s₂.buyer := hbeq ▸ hc
        simp [received, hss, h2, hbb, h3, hc, hc2, outEquiv, view,
          reset_contract, hp, hsel hss, hbeq]
      · have hc2 : ¬ sender = s₂.buyer := hbeq ▸ hc
        simp [received, hss, h2, hbb, h3, hc, hc2, outEquiv]

theorem unsell_view_congr {s₁ s₂ : State} (hv : view s₁ = view s₂)
    (sender : String) (item_id : Nat) :
    outEquiv (unsell s₁ sender item_id) (unsell s₂ sender item_id) := by
  obtain ⟨hp, hs, hb, hsel, hbuy⟩ := view_eq_parts hv
  cases hss : s₁.seller_is_set with
  | false =>
    have h2 : s₂.seller_is_set = false := hs ▸ hss
    simp [unsell, hss, h2, outEquiv]
  | true =>
    have h2 : s₂.seller_is_set = true := hs ▸ hss
    cases hbb : s₁.buyer_is_set with
    | false =>
      have h3 : s₂.buyer_is_set = false := hb ▸ hbb
      simp [unsell, hss, h2, hbb, h3, outEquiv]
    | true =>
      have h3 : s₂.buyer_is_set = true := hb ▸ hbb
      have hseq : s₁.seller = s₂.seller := hsel hss
      by_cases hc : sender = s₁.seller
      · have hc2 : sender = s₂.seller := hseq ▸ hc
        simp [unsell, hss, h2, hbb, h3, hc, hc2, outEquiv, view,
          reset_contract, hp, hbuy hbb, hseq]
      · have hc2 : ¬ sender = s₂.seller := hseq ▸ hc
        simp [unsell, hss, h2, hbb, h3, hc, hc2, outEquiv]

/-- Claim C6: a successful resolving call (`received` or `unsell`) leaves the
storage in the exact `Empty` state — listing `{0,0}`, both flags false — with
the same view as the initial storage; and any two storages with the same view
are observably equivalent under every entry point (same outcome, same
transfers, same resulting view), so a sell cycle begun after a resolving call
behaves identically to one begun from the initial state. -/
theorem resolving_roundtrip :
    (∀ (s : State) (sender : String) (item_id : Nat) (s' : State) (ts : List Transfer),
      received s sender item_id = .ok (s', ts) →
      emptyLike s' ∧ view s' = view initState) ∧
    (∀ (s : State) (sender : String) (item_id : Nat) (s' : State) (ts : List Transfer),
      unsell s sender item_id = .ok (s', ts) →
      emptyLike s' ∧ view s' = view initState) ∧
    (∀ s₁ s₂ : State, view s₁ = view s₂ →
      (∀ (sender : String) (amount item_id price : Nat),
        outEquiv (sell s₁ sender amount item_id price)
          (sell s₂ sender amount item_id price)) ∧
      (∀ (sender : String) (amount item_id : Nat),
        outEquiv (buy s₁ sender amount item_id) (buy s₂ sender amount item_id)) ∧
      (∀ (sender : String) (item_id : Nat),
        outEquiv (received s₁ sender item_id) (received s₂ sender item_id)) ∧
      (∀ (sender : String) (item_id : Nat),
        outEquiv (unsell s₁ sender item_id) (unsell s₂ sender item_id))) := by
  refine ⟨?_, ?_, ?_⟩
  · intro s sender item_id s' ts h
    obtain ⟨-, -, -, rfl, -⟩ := received_ok_iff h
    exact ⟨⟨rfl, rfl, rfl⟩, rfl⟩
  · intro s sender item_id s' ts h
    obtain ⟨-, -, -, rfl, -⟩ := unsell_ok_iff h
    exact ⟨⟨rfl, rfl, rfl⟩, rfl⟩
  · intro s₁ s₂ hv
    exact ⟨sell_view_congr hv, buy_view_congr hv,
      received_view_congr hv, unsell_view_congr hv⟩

/-- Claim C6 witness: the storage left behind by a resolved cycle (stale
carol and dave identities) runs `sell` observably identically to the initial
storage. -/
theorem resolving_roundtrip_witness :
    outEquiv (sell ⟨⟨0, 0⟩, "carol", "dave", false, false⟩ "alice" 6 1 3)
      (sell initState "alice" 6 1 3) :=
  (resolving_roundtrip.2.2 ⟨⟨0, 0⟩, "carol", "dave", false, false⟩ initState rfl).1
    "alice" 6 1 3

/-! ### The escrow-balance invariant

`received` and `unsell` never read the attached amount, so a resolving call
may carry extra value; that value stays in the contract after the reset and
breaks the spec's balance accounting.  The invariant does hold whenever every
resolving invocation attaches zero amount. -/

theorem reachableZ_strong {c : Config} (h : ReachableZ c) :
    (c.state.buyer_is_set = true → c.state.seller_is_set = true) ∧
    escrowInvariant c := by
  induction h with
  | init =>
    exact ⟨fun h => by simp [initState] at h, fun _ => rfl,
      fun h => by simp [initState] at h, fun h => by simp [initState] at h⟩
  | step call hr hz hstep ih =>
    rename_i c c'
    cases call with
    | sell sender amount item_id price =>
      simp only [applyCall] at hstep
      cases hres : Mediator.sell _ sender amount item_id price with
      | error e => rw [hres] at hstep; simp [settle] at hstep
      | ok p =>
        obtain ⟨t, ts⟩ := p
        rw [hres] at hstep
        simp only [settle, Except.ok.injEq] at hstep
        subst hstep
        obtain ⟨hss, hamt, rfl, rfl⟩ := sell_ok_iff hres
        have hb0 : c.state.buyer_is_set = false := by
          cases hbb : c.state.buyer_is_set with
          | false => rfl
          | true => rw [ih.1 hbb] at hss; exact absurd hss (by simp)
        have hbal := ih.2.1 ⟨hss, hb0⟩
        refine ⟨fun _ => rfl, fun h => by simp at h, fun _ => ?_, fun h => ?_⟩
        · simp [transferTotal, hbal, hamt]
        · rw [hb0] at h; simp at h
    | buy sender amount item_id =>
      simp only [applyCall] at hstep
      cases hres : Mediator.buy _ sender amount item_id with
      | error e => rw [hres] at hstep; simp [settle] at hstep
      | ok p =>
        obtain ⟨t, ts⟩ := p
        rw [hres] at hstep
        simp only [settle, Except.ok.injEq] at hstep
        subst hstep
        obtain ⟨hss, hbs, hamt, rfl, rfl⟩ := buy_ok_iff hres
        have hbal := ih.2.2.1 ⟨hss, hbs⟩
        refine ⟨fun _ => hss, fun h => by rw [hss] at h; simp at h,
          fun h => by simp at h, fun _ => ?_⟩
        simp only [transferTotal, List.map_nil, List.sum_nil, Nat.sub_zero]
        simp [hbal, hamt]
        omega
    | received sender amount item_id =>
      simp only [applyCall] at hstep
      cases hres : Mediator.received _ sender item_id with
      | error e => rw [hres] at hstep; simp [settle] at hstep
      | ok p =>
        obtain ⟨t, ts⟩ := p
        rw [hres] at hstep
        simp only [settle, Except.ok.injEq] at hstep
        subst hstep
        obtain ⟨hss, hbs, hc, rfl, rfl⟩ := received_ok_iff hres
        have hz0 : amount = 0 := hz
        have hbal := ih.2.2.2 ⟨hss, hbs⟩
        refine ⟨fun h => by simp [reset_contract] at h, fun _ => ?_,
          fun h => by simp [reset_contract] at h,
          fun h => by simp [reset_contract] at h⟩
        simp [transferTotal, hbal, hz0]
        omega
    | unsell sender amount item_id =>
      simp only [applyCall] at hstep
      cases hres : Mediator.unsell _ sender item_id with
      | error e => rw [hres] at hstep; simp [settle] at hstep
      | ok p =>
        obtain ⟨t, ts⟩ := p
        rw [hres] at hstep
        simp only [settle, Except.ok.injEq] at hstep
        subst hstep
        obtain ⟨hss, hbs, hc, rfl, rfl⟩ := unsell_ok_iff hres
        have hz0 : amount = 0 := hz
        have hbal := ih.2.2.2 ⟨hss, hbs⟩
        refine ⟨fun h => by simp [reset_contract] at h, fun _ => ?_,
          fun h => by simp [reset_contract] at h,
          fun h => by simp [reset_contract] at h⟩
        simp [transferTotal, hbal, hz0]
        omega

/-- Claim C3 counterexample: the balance invariant fails on a reachable
configuration.  From origination: `sell` by alice at price 1 with stake 2,
`buy` by bob with stake 2, then `received` by bob with an attached amount of
1 mutez — `received` never checks the attached amount, so after the payouts
and the reset the instance is `Empty` (both flags false) yet still holds a
balance of 1, not 0. -/
theorem escrow_balance_invariant_counterexample :
    ¬ (∀ c : Config, Reachable c → escrowInvariant c) := by
  intro h
  have r1 : Reachable ⟨⟨⟨1, 1⟩, "alice", DEFAULTS.default_buyer, true, false⟩, 2⟩ :=
    Reachable.step (Call.sell "alice" 2 1 1) Reachable.init rfl
  have r2 : Reachable ⟨⟨⟨1, 1⟩, "alice", "bob", true, true⟩, 4⟩ :=
    Reachable.step (Call.buy "bob" 2 1) r1 rfl
  have r3 : Reachable ⟨⟨⟨0, 0⟩, "alice", "bob", false, false⟩, 1⟩ :=
    Reachable.step (Call.received "bob" 1 1) r2 rfl
  exact absurd ((h _ r3).1 ⟨rfl, rfl⟩) one_ne_zero

/-- Claim C3, amended: in every configuration reachable when each resolving
invocation (`received`, `unsell`) attaches zero amount, the held balance is
exactly 0 when both flags are false, `2 * price` when only the seller has
deposited, and `4 * price` when both have deposited. -/
theorem escrow_balance_invariant_zero_resolve {c : Config} (h : ReachableZ c) :
    escrowInvariant c :=
  (reachableZ_strong h).2

/-- Claim C3 witness: the invariant at the concrete seller-staked
configuration reached by a single `sell` at price 1 with stake 2. -/
theorem escrow_balance_invariant_zero_resolve_witness :
    escrowInvariant ⟨⟨⟨1, 1⟩, "alice", DEFAULTS.default_buyer, true, false⟩, 2⟩ :=
  escrow_balance_invariant_zero_resolve
    (ReachableZ.step (Call.sell "alice" 2 1 1) ReachableZ.init trivial rfl)

end Mediator
